import Mathlib

/-!
Shallow embedding of `src/script.js` from the cadit-embed-example
repository: a host page that talks to an embedded CADit iframe over
`postMessage`.  The embedding models the protocol core — origin gate,
message codec, channel adapter and session state — as pure Lean
functions over an explicit host state, with DOM/console side effects
reified as an `Effect` list.
-/

namespace CaditEmbed

/-- JavaScript values, as far as the host script inspects them: the two
nullish values, primitives, binary blobs (modelled by their byte list),
arrays and plain objects (association lists of fields). -/
inductive JSValue : Type
  | vNull
  | vUndefined
  | vBool (b : Bool)
  | vNum (n : Int)
  | vStr (s : String)
  | vBlob (bytes : List Nat)
  | vArr (elems : List JSValue)
  | vObj (fields : List (String × JSValue))

/-- JavaScript truthiness, as used by `!type`, `!payload?.blob`, `||`. -/
def JSValue.truthy : JSValue → Bool
  | .vNull => false
  | .vUndefined => false
  | .vBool b => b
  | .vNum n => n != 0
  | .vStr s => !s.isEmpty
  | .vBlob _ => true
  | .vArr _ => true
  | .vObj _ => true

/-- Property access `v.k` on a value that is not nullish: objects look the
key up (absent keys give `undefined`), a `Blob` exposes its `size`, and
property access on any other primitive yields `undefined`. -/
def JSValue.getProp (v : JSValue) (k : String) : JSValue :=
  match v with
  | .vObj fields =>
    match fields.lookup k with
    | some x => x
    | none => .vUndefined
  | .vBlob bytes => if k = "size" then .vNum bytes.length else .vUndefined
  | _ => .vUndefined

/-- Optional chaining `v?.k`: `undefined` when `v` is nullish, otherwise
ordinary property access. -/
def JSValue.optChain (v : JSValue) (k : String) : JSValue :=
  match v with
  | .vNull => .vUndefined
  | .vUndefined => .vUndefined
  | _ => v.getProp k

/-- JavaScript `a || b`: `a` when truthy, else `b`. -/
def JSValue.orElse (a b : JSValue) : JSValue :=
  if a.truthy then a else b

/-- String conversion as performed by template literals. -/
def JSValue.display : JSValue → String
  | .vNull => "null"
  | .vUndefined => "undefined"
  | .vBool b => if b then "true" else "false"
  | .vNum n => toString n
  | .vStr s => s
  | .vBlob _ => "[object Blob]"
  | .vArr _ => "[object Array]"
  | .vObj _ => "[object Object]"

/-- Whether a value is `null` or `undefined` — exactly the values on which
the destructuring `const { type, payload } = event.data` throws. -/
def JSValue.isNullish : JSValue → Bool
  | .vNull => true
  | .vUndefined => true
  | _ => false

/-- Whether a value is a plain object. -/
def JSValue.isObj : JSValue → Bool
  | .vObj _ => true
  | _ => false

/-- Whether a value is an actual binary `Blob`.  Among the values that can
arrive through the structured-clone `postMessage` channel, only a `Blob`
(or `File`, which is a `Blob`) provides the `arrayBuffer()` method that
`loadSTL` calls synchronously. -/
def JSValue.isBlob : JSValue → Bool
  | .vBlob _ => true
  | _ => false

/-- Trusted origin configured at the top of `script.js`. -/
def CADIT_ORIGIN : String := "https://app.cadit.app"

/-- Partner name configured at the top of `script.js`. -/
def PARTNER_NAME : String := "MyApp"

/-- Mutable host state: the session variables `isReady`, `currentBlob`,
`currentFilename`, together with the DOM state the handlers write
(status text, button `disabled` flags, preview visibility, whether the
Three.js renderer has been initialised). -/
structure HostState : Type where
  isReady : Bool
  currentBlob : JSValue
  currentFilename : JSValue
  statusText : String
  getStlBtnDisabled : Bool
  downloadBtnDisabled : Bool
  previewVisible : Bool
  rendererInit : Bool

/-- State at page load: `isReady = false`, both artifact variables
`null`, buttons disabled, no preview, no renderer. -/
def initialState : HostState :=
  { isReady := false
    currentBlob := .vNull
    currentFilename := .vNull
    statusText := ""
    getStlBtnDisabled := true
    downloadBtnDisabled := true
    previewVisible := false
    rendererInit := false }

/-- Ambient environment: whether `caditFrame.contentWindow` is present. -/
structure Env : Type where
  frameAvailable : Bool

/-- Observable side effects of the handlers: a `postMessage` to a target
origin, the event-log panel, console output, `alert`, loading an STL into
the viewer, and triggering a browser download. -/
inductive Effect : Type
  | post (target : String) (message : JSValue)
  | logEvent (mtype : String) (direction : String) (data : JSValue)
  | consoleError (msg : String)
  | consoleLog (msg : String)
  | alert (msg : String)
  | loadStl (blob : JSValue)
  | download (blob : JSValue) (filename : JSValue)

/-- Whether an effect is an outbound `postMessage`. -/
def Effect.isPost : Effect → Bool
  | .post _ _ => true
  | _ => false

/-- Message construction in `sendMessage`: `const message = { type, payload }`. -/
def encodeMessage (mtype : String) (payload : JSValue) : JSValue :=
  .vObj [("type", .vStr mtype), ("payload", payload)]

/-- Message destructuring in `handleMessage`:
`const { type, payload } = event.data`. -/
def decodeMessage (data : JSValue) : JSValue × JSValue :=
  (data.getProp "type", data.getProp "payload")

/-- `sendMessage(type, payload)`: when the iframe window is unavailable it
only logs a console error; otherwise it posts `{type, payload}` to
`CADIT_ORIGIN` and records the send in the event log.  It never touches
the session state. -/
def sendMessage (env : Env) (mtype : String) (payload : JSValue) : List Effect :=
  if !env.frameAvailable then
    [.consoleError "CADit iframe not available"]
  else
    [.post CADIT_ORIGIN (encodeMessage mtype payload),
     .logEvent mtype "sent" payload]

/-- Payload of the `init` message built in `sendInit`:
`{ partnerName: PARTNER_NAME, features: ['export'] }`. -/
def initPayload : JSValue :=
  .vObj [("partnerName", .vStr PARTNER_NAME), ("features", .vArr [.vStr "export"])]

/-- `sendInit()`: sends the `init` message and updates the status line. -/
def sendInit (env : Env) (st : HostState) : HostState × List Effect :=
  ({ st with statusText := "Initialized with partner name: " ++ PARTNER_NAME },
   sendMessage env "init" initPayload)

/-- `handleReady(payload)`: sets `isReady`, writes the version into the
status line, enables the Get STL button, then auto-initialises via
`sendInit()` (which overwrites the status line again). -/
def handleReady (env : Env) (payload : JSValue) (st : HostState) :
    HostState × List Effect :=
  let st1 := { st with
    isReady := true
    statusText :=
      "CADit ready (v" ++ ((payload.optChain "version").orElse (.vStr "unknown")).display ++ ")"
    getStlBtnDisabled := false }
  sendInit env st1

/-- Rendering of `Math.round(payload.blob.size / 1024)` in the status
line: for an actual blob this is round-half-up of size/1024; any value
without a numeric `size` gives `NaN`. -/
def kiloSizeDisplay (blob : JSValue) : String :=
  match blob.getProp "size" with
  | .vNum n => toString (Int.ediv (n + 512) 1024)
  | _ => "NaN"

/-- `handleExportStl(payload)`: without a truthy `payload?.blob` it logs a
console error and surfaces `Error: No STL data received` in the status
line, leaving the artifact variables untouched.  Otherwise it stores the
blob and the (defaulted) filename, enables the download button, shows the
preview, initialises the renderer if needed, loads the STL and reports
the received file in the status line.  The `loadSTL` call is reified
here as the opaque `loadStl` effect; `handleExportStlT` below refines
this with the synchronous throw `loadSTL` raises on a non-`Blob`. -/
def handleExportStl (payload : JSValue) (st : HostState) :
    HostState × List Effect :=
  if !(payload.optChain "blob").truthy then
    ({ st with statusText := "Error: No STL data received" },
     [.consoleError "No blob in export-stl payload"])
  else
    let blob := payload.getProp "blob"
    let filename := (payload.getProp "filename").orElse (.vStr "design.stl")
    ({ st with
        currentBlob := blob
        currentFilename := filename
        downloadBtnDisabled := false
        previewVisible := true
        rendererInit := true
        statusText :=
          "Received: " ++ filename.display ++ " (" ++ kiloSizeDisplay blob ++ " KB)" },
     [.loadStl blob])

/-- Refinement of `handleExportStl` that also models the synchronous
`TypeError` raised inside `loadSTL(payload.blob)`: `loadSTL` immediately
calls `blob.arrayBuffer()`, a method only an actual `Blob` provides, so
a truthy non-`Blob` `blob` value throws — after `currentBlob`,
`currentFilename` and the DOM flags have already been mutated, and
before the status line is written.  The `.error` case carries the
message and the state as mutated at the throw point. -/
def handleExportStlT (payload : JSValue) (st : HostState) :
    Except (String × HostState) (HostState × List Effect) :=
  if !(payload.optChain "blob").truthy then
    .ok ({ st with statusText := "Error: No STL data received" },
     [.consoleError "No blob in export-stl payload"])
  else if (payload.getProp "blob").isBlob then
    .ok ({ st with
        currentBlob := payload.getProp "blob"
        currentFilename := (payload.getProp "filename").orElse (.vStr "design.stl")
        downloadBtnDisabled := false
        previewVisible := true
        rendererInit := true
        statusText :=
          "Received: " ++ ((payload.getProp "filename").orElse (.vStr "design.stl")).display ++
            " (" ++ kiloSizeDisplay (payload.getProp "blob") ++ " KB)" },
     [.loadStl (payload.getProp "blob")])
  else
    .error ("TypeError: blob.arrayBuffer is not a function",
      { st with
          currentBlob := payload.getProp "blob"
          currentFilename := (payload.getProp "filename").orElse (.vStr "design.stl")
          downloadBtnDisabled := false
          previewVisible := true
          rendererInit := true })

/-- Inbound `message` event: a reported origin and the raw data. -/
structure MessageEvent : Type where
  origin : String
  data : JSValue

/-- Console log and event-log entries emitted for every trusted message
that carries a truthy `type`, before the dispatch switch. -/
def logAndDispatchEffects (data : JSValue) : List Effect :=
  [.consoleLog ("Received message: " ++ (decodeMessage data).1.display),
   .logEvent (decodeMessage data).1.display "received" (decodeMessage data).2]

/-- Body of `handleMessage(event)`: drops (with at most a console log) any
event whose origin is not exactly `CADIT_ORIGIN`; on a trusted event it
destructures `event.data` (throwing a `TypeError`, modelled as `.error`,
when the data is nullish), drops messages without a truthy `type`, logs
the message, and dispatches on `ready` / `export-stl` / unknown tags. -/
def handleMessage (env : Env) (ev : MessageEvent) (st : HostState) :
    Except String (HostState × List Effect) :=
  if ev.origin ≠ CADIT_ORIGIN then
    .ok (st,
      if ev.data.truthy && (ev.data.getProp "type").truthy then
        [.consoleLog ("Ignored message from origin: " ++ ev.origin ++
          " (expected: " ++ CADIT_ORIGIN ++ ")")]
      else [])
  else if ev.data.isNullish then
    .error "TypeError: cannot destructure event.data"
  else if !(decodeMessage ev.data).1.truthy then
    .ok (st, [])
  else
    match (decodeMessage ev.data).1 with
    | .vStr "ready" =>
      .ok ((handleReady env (decodeMessage ev.data).2 st).1,
        logAndDispatchEffects ev.data ++ (handleReady env (decodeMessage ev.data).2 st).2)
    | .vStr "export-stl" =>
      .ok ((handleExportStl (decodeMessage ev.data).2 st).1,
        logAndDispatchEffects ev.data ++ (handleExportStl (decodeMessage ev.data).2 st).2)
    | other =>
      .ok (st, logAndDispatchEffects ev.data ++
        [.consoleLog ("Unknown message type: " ++ other.display)])

/-- Refinement of `handleMessage` that propagates both synchronous
throws of the listener: the destructuring `TypeError` on nullish data
and the `blob.arrayBuffer` `TypeError` from `handleExportStlT`.  The
`.error` case carries the state as mutated at the throw point; on every
non-throwing path it returns exactly what `handleMessage` returns. -/
def handleMessageT (env : Env) (ev : MessageEvent) (st : HostState) :
    Except (String × HostState) (HostState × List Effect) :=
  if ev.origin ≠ CADIT_ORIGIN then
    .ok (st,
      if ev.data.truthy && (ev.data.getProp "type").truthy then
        [.consoleLog ("Ignored message from origin: " ++ ev.origin ++
          " (expected: " ++ CADIT_ORIGIN ++ ")")]
      else [])
  else if ev.data.isNullish then
    .error ("TypeError: cannot destructure event.data", st)
  else if !(decodeMessage ev.data).1.truthy then
    .ok (st, [])
  else
    match (decodeMessage ev.data).1 with
    | .vStr "ready" =>
      .ok ((handleReady env (decodeMessage ev.data).2 st).1,
        logAndDispatchEffects ev.data ++ (handleReady env (decodeMessage ev.data).2 st).2)
    | .vStr "export-stl" =>
      match handleExportStlT (decodeMessage ev.data).2 st with
      | .ok r => .ok (r.1, logAndDispatchEffects ev.data ++ r.2)
      | .error e => .error e
    | other =>
      .ok (st, logAndDispatchEffects ev.data ++
        [.consoleLog ("Unknown message type: " ++ other.display)])

/-- `requestStl()`: before readiness it only raises the `alert` (the
`NotReady` surfaced error) and returns; once ready it sends `get-stl`
with a `null` payload and updates the status line. -/
def requestStl (env : Env) (st : HostState) : HostState × List Effect :=
  if !st.isReady then
    (st, [.alert "CADit is not ready yet. Please wait for it to load."])
  else
    ({ st with statusText := "Requesting STL export..." },
     sendMessage env "get-stl" .vNull)

/-- `downloadStl()`: alerts when no blob is stored, otherwise triggers the
browser download of the stored artifact. -/
def downloadStl (st : HostState) : HostState × List Effect :=
  if !st.currentBlob.truthy then
    (st, [.alert "No STL file available. Request an export first."])
  else
    ({ st with statusText := "Downloaded: " ++ st.currentFilename.display },
     [.download st.currentBlob st.currentFilename])

/-- External triggers wired up at the bottom of `script.js`: the
`message` listener and the two button click handlers. -/
inductive Action : Type
  | inbound (ev : MessageEvent)
  | clickGetStl
  | clickDownload

/-- One reaction of the host to a trigger.  A `TypeError` escaping
`handleMessage` leaves the state as already mutated at the throw point —
the destructuring throws before any mutation, so the state is unchanged
and no effect has been produced. -/
def step (env : Env) (a : Action) (st : HostState) : HostState × List Effect :=
  match a with
  | .inbound ev =>
    match handleMessage env ev st with
    | .ok r => r
    | .error _ => (st, [])
  | .clickGetStl => requestStl env st
  | .clickDownload => downloadStl st

/-- Sequential processing of a list of triggers (the single-threaded
event loop), accumulating effects in order. -/
def run (env : Env) (acts : List Action) (st : HostState) : HostState × List Effect :=
  match acts with
  | [] => (st, [])
  | a :: rest =>
    ((run env rest (step env a st).1).1,
     (step env a st).2 ++ (run env rest (step env a st).1).2)

/-- Whether every outbound `post` effect in a list targets the trusted origin. -/
def postsTrusted (effs : List Effect) : Bool :=
  effs.all fun e =>
    match e with
    | .post t _ => t == CADIT_ORIGIN
    | _ => true

/-- Whether an effect is an outbound `post` of an `init`-tagged message. -/
def Effect.isInitPost : Effect → Bool
  | .post _ m =>
    match m.getProp "type" with
    | .vStr s => s == "init"
    | _ => false
  | _ => false

/-- Inbound `ready` event from the trusted origin carrying the given payload. -/
def readyAction (payload : JSValue) : Action :=
  .inbound ⟨CADIT_ORIGIN, .vObj [("type", .vStr "ready"), ("payload", payload)]⟩

/-- State reached by processing one trusted `ready` message: ready flag
set, Get STL button enabled, and the status line left at the init
confirmation that `sendInit` writes last. -/
def afterReadyState (st : HostState) : HostState :=
  { st with isReady := true
            statusText := "Initialized with partner name: " ++ PARTNER_NAME
            getStlBtnDisabled := false }

/-! ## Helper lemmas -/

theorem postsTrusted_append (xs ys : List Effect) :
    postsTrusted (xs ++ ys) = (postsTrusted xs && postsTrusted ys) := by
  simp [postsTrusted, List.all_append]

theorem postsTrusted_sendMessage (env : Env) (t : String) (p : JSValue) :
    postsTrusted (sendMessage env t p) = true := by
  unfold sendMessage
  split <;> simp [postsTrusted]

theorem postsTrusted_handleReady (env : Env) (p : JSValue) (st : HostState) :
    postsTrusted (handleReady env p st).2 = true := by
  simp [handleReady, sendInit, postsTrusted_sendMessage]

theorem postsTrusted_handleExportStl (p : JSValue) (st : HostState) :
    postsTrusted (handleExportStl p st).2 = true := by
  unfold handleExportStl
  split <;> simp [postsTrusted]

theorem postsTrusted_logs (data : JSValue) :
    postsTrusted (logAndDispatchEffects data) = true := by
  simp [logAndDispatchEffects, postsTrusted]

theorem postsTrusted_handleMessage (env : Env) (ev : MessageEvent)
    (st st' : HostState) (effs : List Effect)
    (h : handleMessage env ev st = .ok (st', effs)) :
    postsTrusted effs = true := by
  unfold handleMessage at h
  split at h
  · split at h <;>
    · simp only [Except.ok.injEq, Prod.mk.injEq] at h
      rcases h with ⟨-, h2⟩
      subst h2
      simp [postsTrusted]
  · split at h
    · exact Except.noConfusion h
    · split at h
      · simp only [Except.ok.injEq, Prod.mk.injEq] at h
        rcases h with ⟨-, h2⟩
        subst h2
        rfl
      · split at h
        · simp only [Except.ok.injEq, Prod.mk.injEq] at h
          rcases h with ⟨-, h2⟩
          subst h2
          rw [postsTrusted_append, postsTrusted_logs, postsTrusted_handleReady]
          rfl
        · simp only [Except.ok.injEq, Prod.mk.injEq] at h
          rcases h with ⟨-, h2⟩
          subst h2
          rw [postsTrusted_append, postsTrusted_logs, postsTrusted_handleExportStl]
          rfl
        · simp only [Except.ok.injEq, Prod.mk.injEq] at h
          rcases h with ⟨-, h2⟩
          subst h2
          rw [postsTrusted_append, postsTrusted_logs]
          rfl

theorem postsTrusted_step (env : Env) (a : Action) (st : HostState) :
    postsTrusted (step env a st).2 = true := by
  cases a with
  | inbound ev =>
    rcases h : handleMessage env ev st with e | r
    · simp [step, h, postsTrusted]
    · simp only [step, h]
      exact postsTrusted_handleMessage env ev st r.1 r.2 (by rw [h])
  | clickGetStl =>
    show postsTrusted (requestStl env st).2 = true
    unfold requestStl
    split
    · rfl
    · exact postsTrusted_sendMessage env "get-stl" .vNull
  | clickDownload =>
    show postsTrusted (downloadStl st).2 = true
    unfold downloadStl
    split <;> rfl

/-! ## Claims -/

/-- C8: decoding an encoded message reproduces the tag and the payload
exactly; the payload passes through the codec unchanged. -/
theorem decode_encode_round_trip (tag : String) (payload : JSValue) :
    decodeMessage (encodeMessage tag payload) = (.vStr tag, payload) := rfl

/-- C2: every outbound `postMessage` produced over any sequence of
triggers is addressed exactly to the trusted origin, which is not the
wildcard target. -/
theorem outbound_always_trusted_target (env : Env) (acts : List Action) (st : HostState) :
    postsTrusted (run env acts st).2 = true ∧ CADIT_ORIGIN ≠ "*" := by
  constructor
  · induction acts generalizing st with
    | nil => rfl
    | cons a rest ih =>
      simp only [run, postsTrusted_append, postsTrusted_step, ih, Bool.and_self]
  · decide

/-- C1: an inbound event whose reported origin differs from the trusted
origin is dropped: `handleMessage` succeeds, returns the session state
unchanged, and its effects contain no outbound `post`. -/
theorem untrusted_origin_dropped (env : Env) (ev : MessageEvent) (st : HostState)
    (h : ev.origin ≠ CADIT_ORIGIN) :
    ∃ effs, handleMessage env ev st = .ok (st, effs) ∧
      effs.all (fun e => !e.isPost) = true := by
  refine ⟨if ev.data.truthy && (ev.data.getProp "type").truthy then
      [.consoleLog ("Ignored message from origin: " ++ ev.origin ++
        " (expected: " ++ CADIT_ORIGIN ++ ")")]
    else [], ?_, ?_⟩
  · unfold handleMessage
    rw [if_pos h]
  · split <;> simp [Effect.isPost]

/-- C1 witness: a concrete event from an untrusted origin is dropped. -/
theorem untrusted_origin_dropped_witness :
    ∃ effs,
      handleMessage ⟨true⟩
        ⟨"https://evil.example", .vObj [("type", .vStr "ready")]⟩ initialState =
        .ok (initialState, effs) ∧
      effs.all (fun e => !e.isPost) = true :=
  untrusted_origin_dropped ⟨true⟩
    ⟨"https://evil.example", .vObj [("type", .vStr "ready")]⟩ initialState
    (by decide)

/-- C4: a `get-stl` request issued before readiness produces no outbound
message — only the synchronous `NotReady` alert, the state unchanged —
while in a ready session (with the iframe window present) it posts the
`get-stl` message with a `null` payload. -/
theorem requestStl_notready_rejected (env : Env) (st : HostState) :
    (st.isReady = false →
      requestStl env st =
        (st, [.alert "CADit is not ready yet. Please wait for it to load."])) ∧
    (st.isReady = true → env.frameAvailable = true →
      Effect.post CADIT_ORIGIN (encodeMessage "get-stl" .vNull) ∈ (requestStl env st).2) := by
  constructor
  · intro h
    simp [requestStl, h]
  · intro h hf
    simp [requestStl, h, sendMessage, hf]

/-- C4 witness: at the initial (not ready) state the request only alerts;
in a ready state it posts `get-stl` with a `null` payload. -/
theorem requestStl_notready_rejected_witness :
    requestStl ⟨true⟩ initialState =
      (initialState, [.alert "CADit is not ready yet. Please wait for it to load."]) ∧
    Effect.post CADIT_ORIGIN (encodeMessage "get-stl" .vNull) ∈
      (requestStl ⟨true⟩ { initialState with isReady := true }).2 :=
  ⟨(requestStl_notready_rejected ⟨true⟩ initialState).1 rfl,
   (requestStl_notready_rejected ⟨true⟩ { initialState with isReady := true }).2 rfl rfl⟩

/-- C5: an `export-stl` payload without a truthy blob leaves both
artifact variables unchanged, surfaces the missing-artifact error in the
user-visible status line, and produces only a console error. -/
theorem export_missing_blob_keeps_artifact (payload : JSValue) (st : HostState)
    (h : (payload.optChain "blob").truthy = false) :
    (handleExportStl payload st).1.currentBlob = st.currentBlob ∧
    (handleExportStl payload st).1.currentFilename = st.currentFilename ∧
    (handleExportStl payload st).1.statusText = "Error: No STL data received" ∧
    (handleExportStl payload st).2 = [.consoleError "No blob in export-stl payload"] := by
  simp [handleExportStl, h]

/-- C5 witness: an empty-object payload leaves a previously stored
artifact in place and surfaces the error text. -/
theorem export_missing_blob_keeps_artifact_witness :
    (handleExportStl (.vObj [])
        { initialState with currentBlob := .vBlob [1, 2], currentFilename := .vStr "a.stl" }).1.currentBlob =
      .vBlob [1, 2] ∧
    (handleExportStl (.vObj [])
        { initialState with currentBlob := .vBlob [1, 2], currentFilename := .vStr "a.stl" }).1.currentFilename =
      .vStr "a.stl" ∧
    (handleExportStl (.vObj [])
        { initialState with currentBlob := .vBlob [1, 2], currentFilename := .vStr "a.stl" }).1.statusText =
      "Error: No STL data received" :=
  ⟨(export_missing_blob_keeps_artifact (.vObj [])
      { initialState with currentBlob := .vBlob [1, 2], currentFilename := .vStr "a.stl" } rfl).1,
   (export_missing_blob_keeps_artifact (.vObj [])
      { initialState with currentBlob := .vBlob [1, 2], currentFilename := .vStr "a.stl" } rfl).2.1,
   (export_missing_blob_keeps_artifact (.vObj [])
      { initialState with currentBlob := .vBlob [1, 2], currentFilename := .vStr "a.stl" } rfl).2.2.1⟩

theorem truthy_ne_vNull (v : JSValue) (h : v.truthy = true) : v ≠ .vNull := by
  intro heq
  subst heq
  exact Bool.noConfusion h

theorem optChain_eq_getProp (p : JSValue) (k : String)
    (h : (p.optChain k).truthy = true) : p.getProp k = p.optChain k := by
  cases p <;> simp_all [JSValue.optChain, JSValue.truthy]

theorem handleExportStl_keeps_ready (p : JSValue) (st : HostState) :
    (handleExportStl p st).1.isReady = st.isReady := by
  unfold handleExportStl
  split <;> rfl

theorem handleExportStl_blob_not_null (p : JSValue) (st : HostState)
    (h : st.currentBlob ≠ .vNull) : (handleExportStl p st).1.currentBlob ≠ .vNull := by
  unfold handleExportStl
  split
  · exact h
  · next hguard =>
    simp only [Bool.not_eq_true', Bool.not_eq_false] at hguard
    have hg := optChain_eq_getProp p "blob" hguard
    show p.getProp "blob" ≠ .vNull
    rw [hg]
    exact truthy_ne_vNull _ hguard

theorem handleReady_state (env : Env) (p : JSValue) (st : HostState) :
    (handleReady env p st).1 =
      { st with isReady := true
                statusText := "Initialized with partner name: " ++ PARTNER_NAME
                getStlBtnDisabled := false } := rfl

theorem handleMessage_preserves (env : Env) (ev : MessageEvent)
    (st st' : HostState) (effs : List Effect)
    (h : handleMessage env ev st = .ok (st', effs)) :
    (st.isReady = true → st'.isReady = true) ∧
    (st.currentBlob ≠ .vNull → st'.currentBlob ≠ .vNull) := by
  unfold handleMessage at h
  split at h
  · split at h <;>
    · simp only [Except.ok.injEq, Prod.mk.injEq] at h
      rcases h with ⟨h1, -⟩
      subst h1
      exact ⟨id, id⟩
  · split at h
    · exact Except.noConfusion h
    · split at h
      · simp only [Except.ok.injEq, Prod.mk.injEq] at h
        rcases h with ⟨h1, -⟩
        subst h1
        exact ⟨id, id⟩
      · split at h
        · simp only [Except.ok.injEq, Prod.mk.injEq] at h
          rcases h with ⟨h1, -⟩
          subst h1
          rw [handleReady_state]
          exact ⟨fun _ => rfl, fun hb => hb⟩
        · simp only [Except.ok.injEq, Prod.mk.injEq] at h
          rcases h with ⟨h1, -⟩
          subst h1
          exact ⟨fun hr => by rw [handleExportStl_keeps_ready]; exact hr,
                 handleExportStl_blob_not_null _ _⟩
        · simp only [Except.ok.injEq, Prod.mk.injEq] at h
          rcases h with ⟨h1, -⟩
          subst h1
          exact ⟨id, id⟩

theorem step_keeps_ready (env : Env) (a : Action) (st : HostState)
    (h : st.isReady = true) : (step env a st).1.isReady = true := by
  cases a with
  | inbound ev =>
    rcases hm : handleMessage env ev st with e | r
    · simpa [step, hm] using h
    · simp only [step, hm]
      exact (handleMessage_preserves env ev st r.1 r.2 (by rw [hm])).1 h
  | clickGetStl =>
    show (requestStl env st).1.isReady = true
    unfold requestStl
    split <;> exact h
  | clickDownload =>
    show (downloadStl st).1.isReady = true
    unfold downloadStl
    split <;> exact h

theorem step_keeps_blob (env : Env) (a : Action) (st : HostState)
    (h : st.currentBlob ≠ .vNull) : (step env a st).1.currentBlob ≠ .vNull := by
  cases a with
  | inbound ev =>
    rcases hm : handleMessage env ev st with e | r
    · simpa [step, hm] using h
    · simp only [step, hm]
      exact (handleMessage_preserves env ev st r.1 r.2 (by rw [hm])).2 h
  | clickGetStl =>
    show (requestStl env st).1.currentBlob ≠ .vNull
    unfold requestStl
    split <;> exact h
  | clickDownload =>
    show (downloadStl st).1.currentBlob ≠ .vNull
    unfold downloadStl
    split <;> exact h

/-- C6: a trusted `export-stl` whose payload carries a truthy blob and
filename stores exactly that blob and that filename, independently of the
previous state (a full overwrite, no merge); moreover no trigger ever
clears a stored artifact back to null. -/
theorem export_overwrites_artifact (payload : JSValue) (st : HostState)
    (hb : (payload.optChain "blob").truthy = true)
    (hf : (payload.optChain "filename").truthy = true) :
    ((handleExportStl payload st).1.currentBlob = payload.optChain "blob" ∧
     (handleExportStl payload st).1.currentFilename = payload.optChain "filename") ∧
    ∀ (env : Env) (a : Action) (st2 : HostState),
      st2.currentBlob ≠ .vNull → (step env a st2).1.currentBlob ≠ .vNull := by
  refine ⟨?_, fun env a st2 => step_keeps_blob env a st2⟩
  unfold handleExportStl
  rw [if_neg (by simp [hb])]
  constructor
  · exact optChain_eq_getProp payload "blob" hb
  · show (payload.getProp "filename").orElse (.vStr "design.stl") = payload.optChain "filename"
    rw [optChain_eq_getProp payload "filename" hf]
    unfold JSValue.orElse
    rw [if_pos hf]

/-- C6 witness: a concrete export overwrites a previously stored
artifact with the new blob and filename, and a stored artifact survives
a concrete later trigger. -/
theorem export_overwrites_artifact_witness :
    ((handleExportStl (.vObj [("blob", .vBlob [7, 8, 9]), ("filename", .vStr "part.stl")])
        { initialState with currentBlob := .vBlob [1], currentFilename := .vStr "old.stl" }).1.currentBlob =
      (JSValue.vObj [("blob", .vBlob [7, 8, 9]), ("filename", .vStr "part.stl")]).optChain "blob" ∧
     (handleExportStl (.vObj [("blob", .vBlob [7, 8, 9]), ("filename", .vStr "part.stl")])
        { initialState with currentBlob := .vBlob [1], currentFilename := .vStr "old.stl" }).1.currentFilename =
      (JSValue.vObj [("blob", .vBlob [7, 8, 9]), ("filename", .vStr "part.stl")]).optChain "filename") ∧
    (step ⟨true⟩ Action.clickDownload
        { initialState with currentBlob := .vBlob [1] }).1.currentBlob ≠ .vNull :=
  ⟨(export_overwrites_artifact
      (.vObj [("blob", .vBlob [7, 8, 9]), ("filename", .vStr "part.stl")])
      { initialState with currentBlob := .vBlob [1], currentFilename := .vStr "old.stl" }
      rfl rfl).1,
   (export_overwrites_artifact
      (.vObj [("blob", .vBlob [7, 8, 9]), ("filename", .vStr "part.stl")])
      { initialState with currentBlob := .vBlob [1], currentFilename := .vStr "old.stl" }
      rfl rfl).2 ⟨true⟩ Action.clickDownload
      { initialState with currentBlob := .vBlob [1] }
      (fun hc => JSValue.noConfusion hc)⟩

theorem step_readyAction (env : Env) (p : JSValue) (st : HostState) :
    (step env (readyAction p) st).1 = afterReadyState st := rfl

theorem run_readyActions (env : Env) (ps : List JSValue) (st : HostState) :
    ps ≠ [] → (run env (ps.map readyAction) st).1 = afterReadyState st := by
  induction ps generalizing st with
  | nil => exact fun h => absurd rfl h
  | cons p rest ih =>
    intro _
    by_cases hr : rest = []
    · subst hr
      show (run env [readyAction p] st).1 = afterReadyState st
      simp [run, step_readyAction]
    · simp only [List.map_cons, run]
      rw [step_readyAction, ih (afterReadyState st) hr]
      rfl

theorem step_readyAction_effects (env : Env) (p : JSValue) (st : HostState) :
    (step env (readyAction p) st).2 =
      logAndDispatchEffects (.vObj [("type", .vStr "ready"), ("payload", p)]) ++
        sendMessage env "init" initPayload := rfl

theorem readyAction_init_count (env : Env) (p : JSValue) (st : HostState)
    (h : env.frameAvailable = true) :
    ((step env (readyAction p) st).2.filter Effect.isInitPost).length = 1 := by
  rw [step_readyAction_effects, List.filter_append, List.length_append]
  rw [show sendMessage env "init" initPayload =
      [.post CADIT_ORIGIN (encodeMessage "init" initPayload),
       .logEvent "init" "sent" initPayload] from by simp [sendMessage, h]]
  rfl

/-- C3 counterexample: two trusted `ready` messages cause two automatic
`init` sends, not exactly one — the auto-handshake is not restricted to
the first detection of readiness. -/
theorem double_ready_double_init :
    ((run ⟨true⟩ [readyAction (.vObj [("version", .vStr "1.0")]),
                  readyAction (.vObj [("version", .vStr "1.0")])] initialState).2.filter
        Effect.isInitPost).length = 2 := rfl

/-- C3 (amended): every trusted `ready` message triggers exactly one
automatic `init` send (carrying the configured partner identifier and
capability list) while the iframe window is present: n `ready` messages
produce n `init` sends, one per `ready`, not one per session. -/
theorem each_ready_triggers_init (env : Env) (st : HostState) (ps : List JSValue)
    (h : env.frameAvailable = true) :
    ((run env (ps.map readyAction) st).2.filter Effect.isInitPost).length = ps.length ∧
    Effect.post CADIT_ORIGIN (encodeMessage "init" initPayload) ∈
      (step env (readyAction (.vObj [])) st).2 := by
  constructor
  · induction ps generalizing st with
    | nil => rfl
    | cons p rest ih =>
      simp only [List.map_cons, run, List.filter_append, List.length_append, List.length_cons]
      rw [readyAction_init_count env p st h, ih ((step env (readyAction p) st).1)]
      omega
  · rw [step_readyAction_effects]
    simp [sendMessage, h, logAndDispatchEffects]

/-- C3 witness: with the iframe present, two concrete `ready` messages
yield two `init` sends, and a `ready` message posts the `init` message
with the configured partner payload. -/
theorem each_ready_triggers_init_witness :
    ((run ⟨true⟩ ([JSValue.vObj [("version", .vStr "3.1")],
                   JSValue.vObj [("version", .vStr "3.2")]].map readyAction) initialState).2.filter
        Effect.isInitPost).length = 2 ∧
    Effect.post CADIT_ORIGIN (encodeMessage "init" initPayload) ∈
      (step ⟨true⟩ (readyAction (.vObj [])) initialState).2 :=
  each_ready_triggers_init ⟨true⟩ initialState
    [JSValue.vObj [("version", .vStr "3.1")], JSValue.vObj [("version", .vStr "3.2")]] rfl

/-- C7 counterexample: the final host state after a trusted `ready` does
not depend on the reported version — two different versions give exactly
the same state, and the status line ends as the init confirmation — so
no state field records the version of the last `ready` received. -/
theorem ready_version_not_recorded :
    (run ⟨true⟩ [readyAction (.vObj [("version", .vStr "1.0")])] initialState).1 =
      (run ⟨true⟩ [readyAction (.vObj [("version", .vStr "2.0")])] initialState).1 ∧
    (run ⟨true⟩ [readyAction (.vObj [("version", .vStr "1.0")]),
                 readyAction (.vObj [("version", .vStr "2.0")])] initialState).1.statusText =
      "Initialized with partner name: " ++ PARTNER_NAME := ⟨rfl, rfl⟩

/-- C7 (amended): any non-empty sequence of trusted `ready` messages
leaves the session in exactly the state reached after a single `ready`
(ready flag true, idempotent final state), the ready flag is never reset
by any later trigger, and the final state is independent of the version
payloads (the version is only displayed transiently during handling). -/
theorem repeated_ready_idempotent (env : Env) (st : HostState) (ps : List JSValue)
    (h : ps ≠ []) :
    (run env (ps.map readyAction) st).1 = afterReadyState st ∧
    (afterReadyState st).isReady = true ∧
    ∀ (a : Action) (st2 : HostState), st2.isReady = true → (step env a st2).1.isReady = true :=
  ⟨run_readyActions env ps st h, rfl, fun a st2 => step_keeps_ready env a st2⟩

/-- C7 witness: two concrete `ready` messages with different versions end
in the single-`ready` state, and a concrete later trigger keeps the
ready flag set. -/
theorem repeated_ready_idempotent_witness :
    (run ⟨true⟩ ([JSValue.vObj [("version", .vStr "1.0")],
                  JSValue.vObj [("version", .vStr "2.0")]].map readyAction) initialState).1 =
      afterReadyState initialState ∧
    (afterReadyState initialState).isReady = true ∧
    (step ⟨true⟩ Action.clickGetStl (afterReadyState initialState)).1.isReady = true :=
  ⟨(repeated_ready_idempotent ⟨true⟩ initialState
      [JSValue.vObj [("version", .vStr "1.0")], JSValue.vObj [("version", .vStr "2.0")]]
      (by simp)).1,
   (repeated_ready_idempotent ⟨true⟩ initialState
      [JSValue.vObj [("version", .vStr "1.0")], JSValue.vObj [("version", .vStr "2.0")]]
      (by simp)).2.1,
   (repeated_ready_idempotent ⟨true⟩ initialState
      [JSValue.vObj [("version", .vStr "1.0")], JSValue.vObj [("version", .vStr "2.0")]]
      (by simp)).2.2 Action.clickGetStl (afterReadyState initialState) rfl⟩

/-- C9: a trusted message with a truthy but unrecognized tag (neither
`ready` nor `export-stl`) decodes and dispatches to the no-op default
branch: the handler returns normally with the state unchanged, logging
the unknown tag, and none of its effects is an outbound message. -/
theorem unknown_tag_ignored (env : Env) (ev : MessageEvent) (st : HostState)
    (ho : ev.origin = CADIT_ORIGIN)
    (hn : ev.data.isNullish = false)
    (ht : (decodeMessage ev.data).1.truthy = true)
    (hr : (decodeMessage ev.data).1 ≠ .vStr "ready")
    (he : (decodeMessage ev.data).1 ≠ .vStr "export-stl") :
    handleMessage env ev st =
      .ok (st, logAndDispatchEffects ev.data ++
        [Effect.consoleLog ("Unknown message type: " ++ (decodeMessage ev.data).1.display)]) ∧
    (logAndDispatchEffects ev.data ++
        [Effect.consoleLog ("Unknown message type: " ++ (decodeMessage ev.data).1.display)]).all
      (fun e => !e.isPost) = true := by
  constructor
  · unfold handleMessage
    rw [if_neg (by simp [ho]), if_neg (by simp [hn]), if_neg (by simp [ht])]
    split
    · next heq => exact absurd heq hr
    · next heq => exact absurd heq he
    · rfl
  · simp [logAndDispatchEffects, Effect.isPost]

/-- C9 witness: a concrete future tag from the trusted origin is logged
and ignored without touching the state. -/
theorem unknown_tag_ignored_witness :
    handleMessage ⟨true⟩
        ⟨CADIT_ORIGIN, .vObj [("type", .vStr "future-tag"), ("payload", .vNull)]⟩
        initialState =
      .ok (initialState,
        logAndDispatchEffects (.vObj [("type", .vStr "future-tag"), ("payload", .vNull)]) ++
          [Effect.consoleLog ("Unknown message type: " ++
            (decodeMessage (.vObj [("type", .vStr "future-tag"), ("payload", .vNull)])).1.display)]) ∧
    (logAndDispatchEffects (.vObj [("type", .vStr "future-tag"), ("payload", .vNull)]) ++
        [Effect.consoleLog ("Unknown message type: " ++
          (decodeMessage (.vObj [("type", .vStr "future-tag"), ("payload", .vNull)])).1.display)]).all
      (fun e => !e.isPost) = true :=
  unknown_tag_ignored ⟨true⟩
    ⟨CADIT_ORIGIN, .vObj [("type", .vStr "future-tag"), ("payload", .vNull)]⟩
    initialState rfl rfl rfl
    (fun hc => by injection hc with hs; exact absurd hs (by decide))
    (fun hc => by injection hc with hs; exact absurd hs (by decide))


theorem handleExportStlT_ok (p : JSValue) (st : HostState) (r : HostState × List Effect)
    (h : handleExportStlT p st = .ok r) : handleExportStl p st = r := by
  unfold handleExportStlT at h
  unfold handleExportStl
  split at h
  · next hc =>
    rw [if_pos hc]
    exact Except.ok.inj h
  · next hc =>
    rw [if_neg hc]
    split at h
    · exact Except.ok.inj h
    · exact Except.noConfusion h

theorem handleExportStlT_error (p : JSValue) (st : HostState) (e : String × HostState)
    (h : handleExportStlT p st = .error e) :
    (p.optChain "blob").truthy = true ∧ (p.optChain "blob").isBlob = false := by
  unfold handleExportStlT at h
  split at h
  · exact Except.noConfusion h
  · next hg =>
    split at h
    · exact Except.noConfusion h
    · next hib =>
      have hgt : (p.optChain "blob").truthy = true := by simpa using hg
      refine ⟨hgt, ?_⟩
      rw [← optChain_eq_getProp p "blob" hgt]
      simpa using hib

theorem handleExportStlT_throws (p : JSValue) (st : HostState)
    (hb : (p.optChain "blob").truthy = true)
    (hnb : (p.optChain "blob").isBlob = false) :
    handleExportStlT p st =
      .error ("TypeError: blob.arrayBuffer is not a function",
        { st with
            currentBlob := p.getProp "blob"
            currentFilename := (p.getProp "filename").orElse (.vStr "design.stl")
            downloadBtnDisabled := false
            previewVisible := true
            rendererInit := true }) := by
  unfold handleExportStlT
  rw [if_neg (by simp [hb]),
      if_neg (by rw [optChain_eq_getProp p "blob" hb]; simp [hnb])]

theorem handleMessageT_ok (env : Env) (ev : MessageEvent) (st : HostState)
    (r : HostState × List Effect) (h : handleMessageT env ev st = .ok r) :
    handleMessage env ev st = .ok r := by
  unfold handleMessageT at h
  unfold handleMessage
  split at h
  · next hc =>
    rw [if_pos hc]
    exact congrArg Except.ok (Except.ok.inj h)
  · next hc =>
    rw [if_neg hc]
    split at h
    · exact Except.noConfusion h
    · next hn =>
      rw [if_neg hn]
      split at h
      · next ht =>
        rw [if_pos ht]
        exact congrArg Except.ok (Except.ok.inj h)
      · next ht =>
        rw [if_neg ht]
        split at h
        · exact congrArg Except.ok (Except.ok.inj h)
        · rcases hx : handleExportStlT (decodeMessage ev.data).2 st with e | r'
          · rw [hx] at h
            exact Except.noConfusion h
          · rw [hx] at h
            rw [handleExportStlT_ok _ _ _ hx, Except.ok.inj h]
        · exact congrArg Except.ok (Except.ok.inj h)

/-- C10 counterexample: a trusted event whose data is the plain string
`"hello"` — not an object — is handled totally (both the effect-level
model and the throw-propagating refinement return normally), so the
handler is not total only for object-valued data. -/
theorem handler_total_on_string_data :
    handleMessage ⟨true⟩ ⟨CADIT_ORIGIN, .vStr "hello"⟩ initialState =
      .ok (initialState, []) ∧
    handleMessageT ⟨true⟩ ⟨CADIT_ORIGIN, .vStr "hello"⟩ initialState =
      .ok (initialState, []) ∧
    (JSValue.vStr "hello").isObj = false := ⟨rfl, rfl, rfl⟩

/-- C10 (amended): on a trusted-origin event the handler throws exactly
when the data is null or undefined (the destructuring `TypeError`,
raised — with the state untouched — instead of silently discarding the
event) or when the message is an `export-stl` whose payload carries a
truthy non-`Blob` blob (the synchronous `blob.arrayBuffer()` call inside
`loadSTL`); every other trusted event, object data or not, is handled
totally. -/
theorem handler_throws_iff_nullish_or_badblob (env : Env) (ev : MessageEvent)
    (st : HostState) (ho : ev.origin = CADIT_ORIGIN) :
    ((∃ e, handleMessageT env ev st = .error e) ↔
      (ev.data.isNullish = true ∨
       ((decodeMessage ev.data).1 = .vStr "export-stl" ∧
        ((decodeMessage ev.data).2.optChain "blob").truthy = true ∧
        ((decodeMessage ev.data).2.optChain "blob").isBlob = false))) ∧
    (ev.data.isNullish = true →
      handleMessageT env ev st = .error ("TypeError: cannot destructure event.data", st)) := by
  have hno : ¬(ev.origin ≠ CADIT_ORIGIN) := by simp [ho]
  constructor
  · constructor
    · rintro ⟨e, h⟩
      by_cases hn : ev.data.isNullish = true
      · exact Or.inl hn
      · right
        unfold handleMessageT at h
        rw [if_neg hno, if_neg hn] at h
        split at h
        · exact Except.noConfusion h
        · split at h
          · exact Except.noConfusion h
          · next heq =>
            rcases hx : handleExportStlT (decodeMessage ev.data).2 st with e' | r'
            · rw [hx] at h
              obtain ⟨h1, h2⟩ := handleExportStlT_error _ _ _ hx
              exact ⟨heq, h1, h2⟩
            · rw [hx] at h
              exact Except.noConfusion h
          · exact Except.noConfusion h
    · rintro (hn | ⟨htag, hb, hnb⟩)
      · exact ⟨_, by unfold handleMessageT; rw [if_neg hno, if_pos hn]⟩
      · have hnf : ev.data.isNullish = false := by
          cases hd : ev.data <;>
            simp_all [decodeMessage, JSValue.getProp, JSValue.isNullish]
        have htr : ¬(!(decodeMessage ev.data).1.truthy) = true := by
          rw [htag]
          decide
        refine ⟨("TypeError: blob.arrayBuffer is not a function",
          { st with
              currentBlob := (decodeMessage ev.data).2.getProp "blob"
              currentFilename :=
                ((decodeMessage ev.data).2.getProp "filename").orElse (.vStr "design.stl")
              downloadBtnDisabled := false
              previewVisible := true
              rendererInit := true }), ?_⟩
        unfold handleMessageT
        rw [if_neg hno, if_neg (by simp [hnf]), if_neg htr, htag,
            handleExportStlT_throws (decodeMessage ev.data).2 st hb hnb]
        rfl
  · intro hn
    unfold handleMessageT
    rw [if_neg hno, if_pos hn]

/-- C10 witness: a trusted `export-stl` whose payload has the string
`"x"` as blob throws (the `loadSTL` `TypeError`), and a null-data
trusted event throws the destructuring `TypeError` with the state
untouched. -/
theorem handler_throws_iff_nullish_or_badblob_witness :
    (∃ e, handleMessageT ⟨true⟩
        ⟨CADIT_ORIGIN, .vObj [("type", .vStr "export-stl"),
          ("payload", .vObj [("blob", .vStr "x")])]⟩ initialState = .error e) ∧
    handleMessageT ⟨true⟩ ⟨CADIT_ORIGIN, .vNull⟩ initialState =
      .error ("TypeError: cannot destructure event.data", initialState) :=
  ⟨(handler_throws_iff_nullish_or_badblob ⟨true⟩
      ⟨CADIT_ORIGIN, .vObj [("type", .vStr "export-stl"),
        ("payload", .vObj [("blob", .vStr "x")])]⟩ initialState rfl).1.mpr
      (Or.inr ⟨rfl, rfl, rfl⟩),
   (handler_throws_iff_nullish_or_badblob ⟨true⟩
      ⟨CADIT_ORIGIN, .vNull⟩ initialState rfl).2 rfl⟩

end CaditEmbed
